import Mathlib

/-! Shallow embedding of the S-PLUS stamp-calibration and cube-assembly
pipeline of make_scubes_v03.py (class SCubes), with theorems checking the
natural-language specification against the code.  Floating-point values of
the source are modelled as exact rationals; the one transcendental
operation, the power 10 ** x of numpy, is modelled by an explicit function
parameter applied to the exact exponent of the source, since every checked
property is algebraic in that factor. -/

/-- Speed of light expressed in Angstrom per second.  The source computes
flam = fnu * const.c / wave ** 2 and converts to erg/s/cm2/AA with astropy
units; with wave in Angstrom this equals using c in Angstrom per second. -/
def cAA : ℚ := 2.99792458e18

/-- Line 680: f0 = np.power(10, -0.4 * (48.6 + m0)).  The float power has
no exact rational value, so the power function is the parameter tenpow,
applied to the exact exponent written in the source. -/
def f0 (tenpow : ℚ → ℚ) (zp : ℚ) : ℚ := tenpow (-0.4 * (48.6 + zp))

/-- Line 682: fnu = data * f0, for one pixel. -/
def fnuPix (f0v counts : ℚ) : ℚ := counts * f0v

/-- Lines 683-684: flam = fnu * const.c / wave ** 2, in erg/s/cm2/AA. -/
def flamPix (fnuv wave : ℚ) : ℚ := fnuv * cAA / wave ^ 2

/-- Lines 680-684 composed and divided by the storage scale bscale:
the value stored in the DATA layer for one pixel. -/
def storedFluxPix (tenpow : ℚ → ℚ) (zp wave bscale counts : ℚ) : ℚ :=
  flamPix (fnuPix (f0 tenpow zp) counts) wave / bscale

/-- Line 687: dataerr = 1.0 / weights + np.clip(data, 0, np.infty) / gain,
for one pixel; np.clip(d, 0, inf) is max d 0. -/
def dataerrPix (weight gain counts : ℚ) : ℚ := 1 / weight + max counts 0 / gain

/-- Lines 687-690: the error pixel passed through the same two unit
conversions and divided by bscale: the value stored in the ERRORS layer. -/
def storedErrPix (tenpow : ℚ → ℚ) (zp wave bscale weight gain counts : ℚ) : ℚ :=
  flamPix (fnuPix (f0 tenpow zp) (dataerrPix weight gain counts)) wave / bscale

/-- Header and pixel content of one per-band stamp as read by make_cubes:
MAGZP, GAIN, EFFTIME, optional PSFFWHM and DATE-OBS, the data raster and
the optional matching weight raster (swpweight file). -/
structure StampH where
  magzp : ℚ
  gain : ℚ
  efftime : ℚ
  psffwhm : Option ℚ
  dateObs : Option String
  data : List (List ℚ)
  weight : Option (List (List ℚ))
  deriving DecidableEq

/-- One band slice of the flux cube: every pixel of the stamp data put
through the conversion of lines 680-684. -/
def flamGrid (tenpow : ℚ → ℚ) (bscale wave : ℚ) (st : StampH) : List (List ℚ) :=
  st.data.map (fun row => row.map (storedFluxPix tenpow st.magzp wave bscale))

/-- One band slice of the error cube: lines 685-690, combining the data and
weight rasters pixel by pixel. -/
def errGrid (tenpow : ℚ → ℚ) (bscale wave : ℚ) (st : StampH) : List (List ℚ) :=
  List.zipWith
    (fun drow wrow =>
      List.zipWith (fun d w => storedErrPix tenpow st.magzp wave bscale w st.gain d) drow wrow)
    st.data (st.weight.getD [])

/-- Lines 645-646 and 680-684: the 3-D flux array, one slice per band, in
the order of the bands list. -/
def dataCube (bands : List String) (waveEff : String → ℚ) (stampOf : String → StampH)
    (tenpow : ℚ → ℚ) (bscale : ℚ) : List (List (List ℚ)) :=
  bands.map (fun bd => flamGrid tenpow bscale (waveEff bd) (stampOf bd))

/-- Line 655: has_errs = all weight stamps exist. -/
def has_errs (bands : List String) (stampOf : String → StampH) : Bool :=
  bands.all (fun bd => (stampOf bd).weight.isSome)

/-- Lines 685-690: the optional 3-D error array, present when every band
has a weight stamp, slices in the order of the bands list. -/
def errCube (bands : List String) (waveEff : String → ℚ) (stampOf : String → StampH)
    (tenpow : ℚ → ℚ) (bscale : ℚ) : Option (List (List (List ℚ))) :=
  if has_errs bands stampOf then
    some (bands.map (fun bd => errGrid tenpow bscale (waveEff bd) (stampOf bd)))
  else none

/-- One row of the METADATA table: FILTER, WAVE_EFF, EXPTIME, plus the
optional hfields columns GAIN, PSFFWHM, DATE-OBS of lines 697-701. -/
structure MetaRow where
  band : String
  waveEff : ℚ
  exptime : ℚ
  gain : Option ℚ
  psffwhm : Option ℚ
  dateObs : Option String
  deriving DecidableEq

/-- Default row used for out-of-range table access. -/
def mrDefault : MetaRow := MetaRow.mk "" 0 0 none none none

/-- Lines 692-702: the METADATA table, one row per band in the order of the
bands list; FILTER is the band code, WAVE_EFF from the wave table, EXPTIME
the EFFTIME header value, and each hfields column is included only when it
is present in every band header (GAIN always is, having been read already
at line 672). -/
def metaTable (bands : List String) (waveEff : String → ℚ)
    (stampOf : String → StampH) : List MetaRow :=
  let hasPSF := bands.all (fun bd => (stampOf bd).psffwhm.isSome)
  let hasDate := bands.all (fun bd => (stampOf bd).dateObs.isSome)
  bands.map (fun bd =>
    MetaRow.mk bd (waveEff bd) (stampOf bd).efftime (some (stampOf bd).gain)
      (if hasPSF then (stampOf bd).psffwhm else none)
      (if hasDate then (stampOf bd).dateObs else none))

/-- Insertion of one value into a sorted rational list. -/
def insertQ (a : ℚ) : List ℚ → List ℚ
  | [] => [a]
  | b :: t => if a ≤ b then a :: b :: t else b :: insertQ a t

/-- Ascending sort of a rational list, as numpy sorts before interpolating
a percentile. -/
def sortedQ (l : List ℚ) : List ℚ := l.foldr insertQ []

/-- Line 496: np.percentile(ddata, 2.3) with the default linear
interpolation: position h = (n - 1) * 2.3 / 100 = pos / 1000 in the sorted
data, linearly interpolated between the floor and ceiling samples; the
floor of h is the Nat division pos / 1000. -/
def percentile23 (l : List ℚ) : ℚ :=
  let s := sortedQ l
  let n := s.length
  if n = 0 then 0
  else
    let pos : ℕ := (n - 1) * 23
    let i0 : ℕ := pos / 1000
    let frac : ℚ := (pos : ℚ) / 1000 - (i0 : ℚ)
    let lo := s.getD i0 0
    let hi := s.getD (min (i0 + 1) (n - 1)) 0
    lo + frac * (hi - lo)

/-- Exact rational rendering of np.sqrt(d2) > a for d2 ≥ 0: true iff a is
negative or d2 exceeds a squared. -/
def sqrtGt (d2 a : ℚ) : Bool := decide (a < 0) || decide (a ^ 2 < d2)

/-- Exact rational rendering of np.sqrt(d2) <= r for d2 ≥ 0: true iff r is
nonnegative and d2 is at most r squared. -/
def sqrtLe (d2 r : ℚ) : Bool := decide (0 ≤ r) && decide (d2 ≤ r ^ 2)

/-- One SExtractor catalogue row as used by calc_masks: image position,
FWHM_IMAGE and CLASS_STAR. -/
structure SexSource where
  x : ℚ
  y : ℚ
  fwhm : ℚ
  cstar : ℚ
  deriving DecidableEq

/-- An exclusion circle: centre and radius in pixels. -/
structure ExclCircle where
  x : ℚ
  y : ℚ
  r : ℚ
  deriving DecidableEq

/-- Lines 502-506: select catalogue rows with CLASS_STAR above the
threshold and build one circle per row with radius
3.0 * (FWHM_IMAGE / 0.55). -/
def starsOf (cat : List SexSource) (cthr : ℚ) : List ExclCircle :=
  (cat.filter (fun s => decide (cthr < s.cstar))).map
    (fun s => ExclCircle.mk s.x s.y (3 * (s.fwhm / 0.55)))

/-- Lines 554-558: the pixel at (px, py) falls inside the circle of some
star whose 1-based index is not in the keep list maskstars. -/
def inExcluded (px py : ℚ) (stars : List ExclCircle) (keep : List ℤ) : Bool :=
  (List.enumFrom 1 stars).any (fun p =>
    decide (((p.1 : ℤ)) ∉ keep) && sqrtLe ((px - p.2.x) ^ 2 + (py - p.2.y) ^ 2) p.2.r)

/-- Lines 495-499: fdata = ddata * (ddata > abs(np.percentile(ddata, 2.3)));
the value of the thresholded detection raster at row j, column i. -/
def fdataFn (ddata : List (List ℚ)) : ℕ → ℕ → ℚ := fun j i =>
  let v := (ddata.getD j []).getD i 0
  if |percentile23 ddata.flatten| < v then v else 0

/-- Lines 549-558: maskeddata at row j, column i: zeroed when the pixel
distance from the object centre exceeds angsize, zeroed inside any
non-kept exclusion circle, otherwise the thresholded detection value. -/
def maskedVal (fd : ℕ → ℕ → ℚ) (cx cy angsize : ℚ) (stars : List ExclCircle)
    (keep : List ℤ) (j i : ℕ) : ℚ :=
  if sqrtGt (((i : ℚ) - cx) ^ 2 + ((j : ℚ) - cy) ^ 2) angsize = true then 0
  else if inExcluded (i : ℚ) (j : ℚ) stars keep = true then 0
  else fd j i

/-- Lines 573-575: the final boolean raster starts at zero and is set to 1
exactly where maskeddata is positive. -/
def maskBit (fd : ℕ → ℕ → ℚ) (cx cy angsize : ℚ) (stars : List ExclCircle)
    (keep : List ℤ) (j i : ℕ) : ℚ :=
  if 0 < maskedVal fd cx cy angsize stars keep j i then 1 else 0

/-- Lines 471-601 reduced to the finalized raster: calc_masks for object
centre (cx, cy), configured angular size R (scaled by 1.1 at line 483),
catalogue cat, CLASS_STAR threshold cthr and keep list keep.  The plotting
and header bookkeeping of the source have no effect on the raster. -/
def calc_masks (ddata : List (List ℚ)) (cx cy R : ℚ) (cat : List SexSource)
    (cthr : ℚ) (keep : List ℤ) : List (List ℚ) :=
  (List.range ddata.length).map (fun j =>
    (List.range (ddata.getD j []).length).map (fun i =>
      maskBit (fdataFn ddata) cx cy (R * 1.1) (starsOf cat cthr) keep j i))

/-- Number of masked (zero) pixels of a raster. -/
def maskedCount (g : List (List ℚ)) : ℕ :=
  (g.map (fun row => row.countP (fun v => decide (v = 0)))).sum

/-- Outcome of the interactive REFINE loop of lines 728-751. -/
inductive RefineOut where
  | finalized (stars : List ℤ)
  | quit
  | invalid
  | blocked
  deriving DecidableEq

/-- Lines 730-751: the interactive loop, driven by the list qs of q1
responses and the list idxs of already-parsed index lines read by the
y branch; blocked models the loop waiting forever on an exhausted input
script.  The y branch appends the typed indices and loops, r resets the
list, n finalizes, q aborts, an empty answer repeats the prompt, and any
other answer is the fatal unrecognized-option error. -/
def refineLoop : List String → List (List ℤ) → List ℤ → RefineOut
  | [], _, _ => .blocked
  | q :: qs, idxs, stars =>
    if q = "y" then
      match idxs with
      | [] => .blocked
      | ks :: irest => refineLoop qs irest (stars ++ ks)
    else if q = "r" then refineLoop qs idxs []
    else if q = "n" then .finalized stars
    else if q = "q" then .quit
    else if q = "" then refineLoop qs idxs stars
    else .invalid

/-- Failure modes of make_cubes: incompleteStampSet is the
IOError of line 619 raised when fewer than 24 stamp files remain after the
single re-acquisition, invalidUserInput the IOError of line 751 for an
unrecognized REFINE response, and blockedInput models an exhausted
interactive script. -/
inductive MCErr where
  | incompleteStampSet
  | invalidUserInput
  | blockedInput
  deriving DecidableEq

/-- Lines 614-619: the stamp-count check.  The while loop body runs at most
once, because when the re-acquired count is still below 24 it raises, and
otherwise the loop condition is false; acquire is the effect of
make_stamps_splus(redo=True) on the count of files matching the swp glob. -/
def stampLoop (acquire : ℕ → ℕ) (n : ℕ) : Except MCErr ℕ :=
  if n < 24 then
    let n2 := acquire n
    if n2 < 24 then .error .incompleteStampSet else .ok n2
  else .ok n

/-- Inputs of one make_cubes run for one (object, tile, size): the file
system facts it consults (cube file present, stamp file count, mask file
present, the stored mask raster), the acquisition collaborator, the
per-band stamp content, the flux parameters, the mask-builder inputs used
when the mask is built on demand, and the interactive script. -/
structure MCIn where
  cubeExists : Bool
  redo : Bool
  get_mask : Bool
  stampCount : ℕ
  acquire : ℕ → ℕ
  bands : List String
  waveEff : String → ℚ
  stampOf : String → StampH
  tenpow : ℚ → ℚ
  bscale : ℚ
  maskExists : Bool
  storedMask : List (List ℚ)
  ddata : List (List ℚ)
  cx : ℚ
  cy : ℚ
  R : ℚ
  cat : List SexSource
  cthr : ℚ
  qs : List String
  idxs : List (List ℤ)

/-- The cube artifact written at line 765: DATA, optional ERRORS, optional
MASK and METADATA layers. -/
structure CubeArtifact where
  flam : List (List (List ℚ))
  errs : Option (List (List (List ℚ)))
  mask : Option (List (List ℚ))
  meta : List MetaRow
  deriving DecidableEq

/-- Lines 603-765 for one (object, tile, size): the make_cubes control
flow.  Its maskstars parameter is kept as a separate argument; the source
never reads it, because line 729 resets the local maskstars to the empty
list before the REFINE loop, which the literal empty list passed to
refineLoop embeds.  Result .ok none means make_cubes returned without
writing a cube (the exists-and-not-redo skip of lines 641-643 or the q
abort of lines 745-747); .ok (some c) means the cube c was written.  The
det-stamp build and the re-glob under redo only touch artifacts other than
the cube and are omitted. -/
def make_cubes (inp : MCIn) (maskstars : List ℤ) : Except MCErr (Option CubeArtifact) :=
  match stampLoop inp.acquire inp.stampCount with
  | .error e => .error e
  | .ok _ =>
    if inp.cubeExists && !inp.redo then .ok none
    else
      let flam := dataCube inp.bands inp.waveEff inp.stampOf inp.tenpow inp.bscale
      let errs := errCube inp.bands inp.waveEff inp.stampOf inp.tenpow inp.bscale
      let tab := metaTable inp.bands inp.waveEff inp.stampOf
      if inp.get_mask then
        if inp.maskExists then
          .ok (some (CubeArtifact.mk flam errs (some inp.storedMask) tab))
        else
          match refineLoop inp.qs inp.idxs [] with
          | .finalized stars =>
            .ok (some (CubeArtifact.mk flam errs
              (some (calc_masks inp.ddata inp.cx inp.cy inp.R inp.cat inp.cthr stars)) tab))
          | .quit => .ok none
          | .invalid => .error .invalidUserInput
          | .blocked => .error .blockedInput
      else .ok (some (CubeArtifact.mk flam errs none tab))

/-- A make_cubes result wrote a cube exactly when it is .ok (some c). -/
def writesCube : Except MCErr (Option CubeArtifact) → Bool
  | .ok (some _) => true
  | _ => false

/-- Failure modes around calibrate_stamps: indexError is the Python
IndexError of line 340 when self.tiles is None and the object directory is
empty, and missingCalibrationData stands for the errors of get_zps and
get_zp_correction when a calibration file is absent. -/
inductive CalErr where
  | indexError
  | missingCalibrationData
  deriving DecidableEq

/-- Lines 341-354 of calibrate_stamps: load the zero-point table and the
correction grids (failing when either is absent), then set MAGZP on every
file of the directory listing that ends in the data-stamp suffix.  The
result lists the files written; the written value itself depends only on
per-file header data and the tables and plays no role in the claims. -/
def calibrate_core (tile : String) (listing : List String)
    (zpTable zpcorrGrids : Bool) : Except CalErr (List String) :=
  if zpTable = false then .error .missingCalibrationData
  else if zpcorrGrids = false then .error .missingCalibrationData
  else .ok (listing.filter (fun s => s.endsWith "_swp.fits"))

/-- Lines 334-354: calibrate_stamps.  When self.tiles is None the tile is
parsed from the first directory entry (an IndexError when the directory is
empty); otherwise the configured tile is used.  The unused tile argument of
calibrate_core records that the written files do not depend on it. -/
def calibrate_stamps (tiles : Option String) (listing : List String)
    (zpTable zpcorrGrids : Bool) : Except CalErr (List String) :=
  match tiles with
  | none =>
    match listing with
    | [] => .error .indexError
    | f :: _ => calibrate_core ((f.splitOn "_").getD 1 "") listing zpTable zpcorrGrids
  | some t => calibrate_core t listing zpTable zpcorrGrids

/-- Sample stamp used by the concrete witnesses. -/
def sampleStamp : StampH :=
  StampH.mk 20 1 99 (some 1.2) (some "2021-03-09") [[1]] (some [[1]])

/-- Sample effective-wavelength table used by the concrete witnesses. -/
def sampleWave : String → ℚ := fun _ => 4751

/-- Sample stamp store used by the concrete witnesses. -/
def sampleStampOf : String → StampH := fun _ => sampleStamp

/-- Sample power function used by the concrete witnesses. -/
def sampleTenpow : ℚ → ℚ := fun _ => 1

/-- Builder of concrete make_cubes inputs for the witnesses: the file
system flags, stamp count, acquisition map and interactive script vary,
the stamp content is the sample store. -/
def mcIn (cubeExists redo gmask : Bool) (n : ℕ) (acq : ℕ → ℕ) (maskExists : Bool)
    (qs : List String) (idxs : List (List ℤ)) : MCIn :=
  MCIn.mk cubeExists redo gmask n acq ["U"] sampleWave sampleStampOf sampleTenpow 1
    maskExists [[1]] [[1]] 0 0 10 [] 0.8 qs idxs

/-- C1: for a band with zero point Z and pixel count D, the stored flux is
D * 10 ** (-0.4 * (48.6 + Z)) * c / wave ** 2 / bscale; for an all-ones
stamp with weight W and gain G the flux is exactly that conversion factor
and the stored uncertainty is (1 / W + 1 / G) times the same factor. -/
theorem C1_flux_conversion (tenpow : ℚ → ℚ) (Z wave bscale W G D : ℚ) :
    storedFluxPix tenpow Z wave bscale D = D * f0 tenpow Z * cAA / wave ^ 2 / bscale ∧
    storedFluxPix tenpow Z wave bscale 1 = f0 tenpow Z * cAA / wave ^ 2 / bscale ∧
    storedErrPix tenpow Z wave bscale W G 1 =
      (1 / W + 1 / G) * (f0 tenpow Z * cAA / wave ^ 2 / bscale) := by
  unfold storedFluxPix storedErrPix flamPix fnuPix dataerrPix
  refine ⟨by ring, by ring, ?_⟩
  rw [show max (1 : ℚ) 0 = 1 from by norm_num]
  ring

/-- C2 counterexample: the claim says the propagated uncertainty is the
square root of 1 / weight + max(counts, 0) / gain, but at weight 1, gain 1
and counts 3 the code propagates 4, whose square 16 differs from the
radicand 4, so the propagated value is not that square root. -/
theorem C2_sqrt_counterexample :
    dataerrPix 1 1 3 = 4 ∧
    dataerrPix 1 1 3 ^ 2 ≠ 1 / (1 : ℚ) + max (3 : ℚ) 0 / 1 := by
  constructor
  · unfold dataerrPix; norm_num
  · unfold dataerrPix; norm_num

/-- C2 amended: for every band with a weight stamp the code propagates the
per-pixel quantity 1 / weight + max(counts, 0) / gain itself, with no
square root, through the same two unit conversions as the data. -/
theorem C2_error_propagation (tenpow : ℚ → ℚ) (Z wave bscale W G D : ℚ) :
    storedErrPix tenpow Z wave bscale W G D =
      (1 / W + max D 0 / G) * (f0 tenpow Z * cAA / wave ^ 2 / bscale) := by
  unfold storedErrPix flamPix fnuPix dataerrPix
  ring

/-- C3: with fewer than 24 stamp files and a re-acquisition that still
leaves fewer than 24, make_cubes raises the incomplete-stamp-set error of
line 619 and writes no cube; the single re-acquisition is the one
application of acquire in the hypothesis. -/
theorem C3_incomplete_stamp_set (inp : MCIn) (ms : List ℤ)
    (h1 : inp.stampCount < 24) (h2 : inp.acquire inp.stampCount < 24) :
    make_cubes inp ms = .error .incompleteStampSet ∧
    writesCube (make_cubes inp ms) = false := by
  have hs : stampLoop inp.acquire inp.stampCount = .error .incompleteStampSet := by
    unfold stampLoop
    rw [if_pos h1, if_pos h2]
  have h : make_cubes inp ms = .error .incompleteStampSet := by
    unfold make_cubes
    rw [hs]
  exact ⟨h, by rw [h]; rfl⟩

/-- C3 witness at 20 stamps and a failing re-acquisition. -/
theorem C3_witness :
    (mcIn false false true 20 (fun m => m) false [] []).stampCount < 24 ∧
    (mcIn false false true 20 (fun m => m) false [] []).acquire
      (mcIn false false true 20 (fun m => m) false [] []).stampCount < 24 ∧
    (make_cubes (mcIn false false true 20 (fun m => m) false [] []) [] =
        .error .incompleteStampSet ∧
      writesCube (make_cubes (mcIn false false true 20 (fun m => m) false [] []) []) = false) :=
  ⟨by decide, by decide, C3_incomplete_stamp_set _ [] (by decide) (by decide)⟩

/-- C5: when the cube file already exists, no rebuild is requested, and the
stamp check passes (as it does on a second run after a successful first
run), make_cubes returns without writing a cube. -/
theorem C5_skip_on_exists (inp : MCIn) (ms : List ℤ)
    (h1 : inp.cubeExists = true) (h2 : inp.redo = false) (h3 : 24 ≤ inp.stampCount) :
    make_cubes inp ms = .ok none ∧ writesCube (make_cubes inp ms) = false := by
  have hs : stampLoop inp.acquire inp.stampCount = .ok inp.stampCount := by
    unfold stampLoop
    rw [if_neg (by omega)]
  have h : make_cubes inp ms = .ok none := by
    unfold make_cubes
    rw [hs]
    simp [h1, h2]
  exact ⟨h, by rw [h]; rfl⟩

/-- C5 witness with the cube present, redo off and 24 stamps. -/
theorem C5_witness :
    (mcIn true false true 24 (fun m => m) true [] []).cubeExists = true ∧
    (mcIn true false true 24 (fun m => m) true [] []).redo = false ∧
    24 ≤ (mcIn true false true 24 (fun m => m) true [] []).stampCount ∧
    (make_cubes (mcIn true false true 24 (fun m => m) true [] []) [] = .ok none ∧
      writesCube (make_cubes (mcIn true false true 24 (fun m => m) true [] []) []) = false) :=
  ⟨rfl, rfl, by decide, C5_skip_on_exists _ [] rfl rfl (by decide)⟩

/-- C9: in the REFINE loop reached when a mask is requested and no mask
file exists, a q response returns from make_cubes with no cube written,
and a response other than y, r, n, q or the empty string raises the
unrecognized-option error of line 751, also with no cube written. -/
theorem C9_refine_quit_invalid (inp : MCIn) (ms : List ℤ) (s : String) (rest : List String)
    (h1 : inp.cubeExists = false) (h2 : 24 ≤ inp.stampCount)
    (h3 : inp.get_mask = true) (h4 : inp.maskExists = false) :
    (inp.qs = "q" :: rest →
      make_cubes inp ms = .ok none ∧ writesCube (make_cubes inp ms) = false) ∧
    (inp.qs = s :: rest → ¬s = "y" → ¬s = "r" → ¬s = "n" → ¬s = "q" → ¬s = "" →
      make_cubes inp ms = .error .invalidUserInput ∧
      writesCube (make_cubes inp ms) = false) := by
  have hs : stampLoop inp.acquire inp.stampCount = .ok inp.stampCount := by
    unfold stampLoop
    rw [if_neg (by omega)]
  constructor
  · intro hq
    have h : make_cubes inp ms = .ok none := by
      unfold make_cubes
      rw [hs, hq, h1]
      simp [h3, h4, refineLoop]
    exact ⟨h, by rw [h]; rfl⟩
  · intro hq hy hr hn hqq he
    have hrl : refineLoop (s :: rest) inp.idxs [] = .invalid := by
      simp only [refineLoop]
      rw [if_neg hy, if_neg hr, if_neg hn, if_neg hqq, if_neg he]
    have h : make_cubes inp ms = .error .invalidUserInput := by
      unfold make_cubes
      rw [hs, hq, h1]
      simp [h3, h4, hrl]
    exact ⟨h, by rw [h]; rfl⟩

/-- C9 witness: a q script aborts with no cube, an x script fails with the
invalid-input error. -/
theorem C9_witness :
    (make_cubes (mcIn false false true 24 (fun m => m) false ["q"] []) [] = .ok none ∧
      writesCube (make_cubes (mcIn false false true 24 (fun m => m) false ["q"] []) []) = false) ∧
    (make_cubes (mcIn false false true 24 (fun m => m) false ["x"] []) [] =
        .error .invalidUserInput ∧
      writesCube (make_cubes (mcIn false false true 24 (fun m => m) false ["x"] []) []) = false) :=
  ⟨(C9_refine_quit_invalid (mcIn false false true 24 (fun m => m) false ["q"] []) [] "x" []
      rfl (by decide) rfl rfl).1 rfl,
   (C9_refine_quit_invalid (mcIn false false true 24 (fun m => m) false ["x"] []) [] "x" []
      rfl (by decide) rfl rfl).2 rfl (by decide) (by decide) (by decide) (by decide) (by decide)⟩

/-- C10: the maskstars argument of make_cubes is never read, because line
729 resets the local maskstars to the empty list before the REFINE loop;
two runs differing only in that argument produce identical results. -/
theorem C10_maskstars_unused (inp : MCIn) (ms1 ms2 : List ℤ) :
    make_cubes inp ms1 = make_cubes inp ms2 := rfl

/-- Helper: indexing a mapped list inside its length applies the function
to the corresponding source element. -/
theorem getD_map_lt {α β : Type} (l : List α) (f : α → β) (i : ℕ) (d : β) (d2 : α)
    (h : i < l.length) : (l.map f).getD i d = f (l.getD i d2) := by
  rw [List.getD_eq_getElem?_getD, List.getElem?_map, List.getElem?_eq_getElem h,
    List.getD_eq_getElem?_getD, List.getElem?_eq_getElem h]
  rfl

/-- C4: row i of the METADATA table describes exactly the band whose
calibrated flux occupies slice i of the data cube, and slice i of the
error cube when weight stamps are present: the filter code, effective
wavelength and exposure time of row i are those of band i of the bands
list, and slice i is the converted stamp of that same band. -/
theorem C4_band_alignment (bands : List String) (waveEff : String → ℚ)
    (stampOf : String → StampH) (tenpow : ℚ → ℚ) (bscale : ℚ) (i : ℕ)
    (h : i < bands.length) :
    ((metaTable bands waveEff stampOf).getD i mrDefault).band = bands.getD i "" ∧
    ((metaTable bands waveEff stampOf).getD i mrDefault).waveEff =
      waveEff (bands.getD i "") ∧
    ((metaTable bands waveEff stampOf).getD i mrDefault).exptime =
      (stampOf (bands.getD i "")).efftime ∧
    (dataCube bands waveEff stampOf tenpow bscale).getD i [] =
      flamGrid tenpow bscale (waveEff (bands.getD i "")) (stampOf (bands.getD i "")) ∧
    (has_errs bands stampOf = true →
      ((errCube bands waveEff stampOf tenpow bscale).getD []).getD i [] =
        errGrid tenpow bscale (waveEff (bands.getD i "")) (stampOf (bands.getD i ""))) := by
  refine ⟨?_, ?_, ?_, ?_, ?_⟩
  · unfold metaTable
    rw [getD_map_lt _ _ _ _ "" h]
  · unfold metaTable
    rw [getD_map_lt _ _ _ _ "" h]
  · unfold metaTable
    rw [getD_map_lt _ _ _ _ "" h]
  · unfold dataCube
    rw [getD_map_lt _ _ _ _ "" h]
  · intro he
    unfold errCube
    rw [he]
    simp only [if_true]
    rw [Option.getD_some, getD_map_lt _ _ _ _ "" h]

/-- C4 witness on a two-band store with weight stamps, at row 1. -/
theorem C4_witness :
    1 < (["U", "G"] : List String).length ∧
    (((metaTable ["U", "G"] sampleWave sampleStampOf).getD 1 mrDefault).band =
        (["U", "G"] : List String).getD 1 "" ∧
      ((metaTable ["U", "G"] sampleWave sampleStampOf).getD 1 mrDefault).waveEff =
        sampleWave ((["U", "G"] : List String).getD 1 "") ∧
      ((metaTable ["U", "G"] sampleWave sampleStampOf).getD 1 mrDefault).exptime =
        (sampleStampOf ((["U", "G"] : List String).getD 1 "")).efftime ∧
      (dataCube ["U", "G"] sampleWave sampleStampOf sampleTenpow 1).getD 1 [] =
        flamGrid sampleTenpow 1 (sampleWave ((["U", "G"] : List String).getD 1 ""))
          (sampleStampOf ((["U", "G"] : List String).getD 1 "")) ∧
      (has_errs ["U", "G"] sampleStampOf = true →
        ((errCube ["U", "G"] sampleWave sampleStampOf sampleTenpow 1).getD []).getD 1 [] =
          errGrid sampleTenpow 1 (sampleWave ((["U", "G"] : List String).getD 1 ""))
            (sampleStampOf ((["U", "G"] : List String).getD 1 "")))) :=
  ⟨by decide, C4_band_alignment ["U", "G"] sampleWave sampleStampOf sampleTenpow 1 1 (by decide)⟩

/-- C6 counterexample: with a configured tile, both calibration inputs
present and no stamp files at all, calibrate_stamps returns successfully
having written nothing, instead of failing with a stamp-not-found error as
the claim states; no such error exists in the code. -/
theorem C6_no_stamps_counterexample :
    calibrate_stamps (some "STRIPE82-0059") [] true true = .ok [] := rfl

/-- C6 amended: when no data-kind stamp file is present for the object and
the tile is configured and the calibration tables load, calibrate_stamps
returns successfully with an empty list of header writes; it raises no
error. -/
theorem C6_no_stamps_returns (t : String) (listing : List String)
    (h : ∀ f ∈ listing, f.endsWith "_swp.fits" = false) :
    calibrate_stamps (some t) listing true true = .ok [] := by
  unfold calibrate_stamps calibrate_core
  simp only [Bool.true_eq_false, if_false]
  have : listing.filter (fun s => s.endsWith "_swp.fits") = [] := by
    rw [List.filter_eq_nil_iff]
    intro a ha
    rw [h a ha]
    exact Bool.false_ne_true
  rw [this]

/-- C6 witness on an empty object directory. -/
theorem C6_witness :
    (∀ f ∈ ([] : List String), f.endsWith "_swp.fits" = false) ∧
    calibrate_stamps (some "TILE") [] true true = .ok [] :=
  ⟨by simp, C6_no_stamps_returns "TILE" [] (by simp)⟩

/-- Helper: indexing a mapped range inside its length applies the
function to the index. -/
theorem getD_range_map {β : Type} (n : ℕ) (f : ℕ → β) (i : ℕ) (d : β) (h : i < n) :
    ((List.range n).map f).getD i d = f i := by
  rw [getD_map_lt _ _ _ _ 0 (by simpa using h)]
  congr 1
  rw [List.getD_eq_getElem?_getD, List.getElem?_eq_getElem (by simpa using h)]
  simp [List.getElem_range]

/-- Helper: the finalized raster of calc_masks at an in-bounds pixel is
the maskBit value for that pixel. -/
theorem calc_masks_get (ddata : List (List ℚ)) (cx cy R : ℚ) (cat : List SexSource)
    (cthr : ℚ) (keep : List ℤ) (j i : ℕ) (hj : j < ddata.length)
    (hi : i < (ddata.getD j []).length) :
    ((calc_masks ddata cx cy R cat cthr keep).getD j []).getD i 0 =
      maskBit (fdataFn ddata) cx cy (R * 1.1) (starsOf cat cthr) keep j i := by
  unfold calc_masks
  rw [getD_range_map _ _ _ _ hj, getD_range_map _ _ _ _ hi]

/-- Helper: a pixel excluded under an enlarged keep list was excluded
under the smaller one, since enlarging the keep list only removes
circles. -/
theorem inExcluded_cons (px py : ℚ) (stars : List ExclCircle) (n : ℤ) (keep : List ℤ)
    (h : inExcluded px py stars (n :: keep) = true) :
    inExcluded px py stars keep = true := by
  unfold inExcluded at h ⊢
  rw [List.any_eq_true] at h ⊢
  obtain ⟨p, hp, hc⟩ := h
  refine ⟨p, hp, ?_⟩
  rw [Bool.and_eq_true] at hc ⊢
  refine ⟨?_, hc.2⟩
  have hm := of_decide_eq_true hc.1
  exact decide_eq_true (fun hmem => hm (List.mem_cons_of_mem n hmem))

/-- Helper: a pixel masked under the enlarged keep list is masked under
the smaller one. -/
theorem maskBit_zero_cons (fd : ℕ → ℕ → ℚ) (cx cy a : ℚ) (stars : List ExclCircle)
    (n : ℤ) (keep : List ℤ) (j i : ℕ)
    (h : maskBit fd cx cy a stars (n :: keep) j i = 0) :
    maskBit fd cx cy a stars keep j i = 0 := by
  unfold maskBit maskedVal at h ⊢
  by_cases hg : sqrtGt (((i : ℚ) - cx) ^ 2 + ((j : ℚ) - cy) ^ 2) a = true
  · simp [hg]
  · by_cases hk : inExcluded (i : ℚ) (j : ℚ) stars keep = true
    · simp [hg, hk]
    · have hk2 : inExcluded (i : ℚ) (j : ℚ) stars (n :: keep) = false := by
        cases hcc : inExcluded (i : ℚ) (j : ℚ) stars (n :: keep) with
        | false => rfl
        | true => exact absurd (inExcluded_cons _ _ _ _ _ hcc) hk
      rw [if_neg hg] at h ⊢
      rw [if_neg hk]
      rw [hk2] at h
      simp only [Bool.false_eq_true, if_false] at h
      exact h

/-- Helper: counting over a mapped list counts the composed predicate. -/
theorem countP_map_eq {α β : Type} (l : List α) (f : α → β) (p : β → Bool) :
    (l.map f).countP p = l.countP (fun a => p (f a)) := by
  induction l with
  | nil => rfl
  | cons a t ih => simp [List.countP_cons, ih]

/-- Helper: a pointwise implication between Boolean predicates bounds the
counts. -/
theorem countP_le_of_imp {α : Type} (l : List α) (p q : α → Bool)
    (h : ∀ a ∈ l, p a = true → q a = true) : l.countP p ≤ l.countP q := by
  induction l with
  | nil => simp
  | cons a t ih =>
    rw [List.countP_cons, List.countP_cons]
    have ht := ih (fun x hx => h x (List.mem_cons_of_mem a hx))
    by_cases hp : p a = true
    · rw [hp, h a (List.mem_cons_self a t) hp]
      omega
    · have hp2 : p a = false := by
        cases hpp : p a with
        | false => rfl
        | true => exact absurd hpp hp
      rw [hp2]
      cases q a <;> simp <;> omega

/-- Helper: a pointwise bound between mapped values bounds the sums. -/
theorem sum_map_le {α : Type} (l : List α) (f g : α → ℕ)
    (h : ∀ a ∈ l, f a ≤ g a) : (l.map f).sum ≤ (l.map g).sum := by
  induction l with
  | nil => simp
  | cons a t ih =>
    simp only [List.map_cons, List.sum_cons]
    exact Nat.add_le_add (h a (List.mem_cons_self a t))
      (ih fun x hx => h x (List.mem_cons_of_mem a hx))

/-- C8: for every catalogue and keep list, adding an index not already in
the keep list never increases the number of masked (zero) pixels of the
finalized raster. -/
theorem C8_keep_monotone (ddata : List (List ℚ)) (cx cy R : ℚ) (cat : List SexSource)
    (cthr : ℚ) (keep : List ℤ) (n : ℤ) (h : n ∉ keep) :
    maskedCount (calc_masks ddata cx cy R cat cthr (n :: keep)) ≤
      maskedCount (calc_masks ddata cx cy R cat cthr keep) := by
  unfold maskedCount calc_masks
  rw [List.map_map, List.map_map]
  apply sum_map_le
  intro j hj
  simp only [Function.comp]
  rw [countP_map_eq, countP_map_eq]
  apply countP_le_of_imp
  intro i hi hp
  exact decide_eq_true (maskBit_zero_cons _ _ _ _ _ _ _ _ _ (of_decide_eq_true hp))

/-- C8 witness: keeping star 1 on a one-pixel raster. -/
theorem C8_witness :
    (1 : ℤ) ∉ ([] : List ℤ) ∧
    maskedCount (calc_masks [[1]] 0 0 10 [] 0.8 ((1 : ℤ) :: [])) ≤
      maskedCount (calc_masks [[1]] 0 0 10 [] 0.8 []) :=
  ⟨by decide, C8_keep_monotone [[1]] 0 0 10 [] 0.8 [] 1 (by decide)⟩

/-- C7 amended: for every catalogue and keep list, a pixel whose distance
from the object centre exceeds 1.1 times the angular-size radius is masked
(0); a pixel inside a non-kept exclusion circle is masked; and a pixel
within the radius and outside every non-kept circle is 1 exactly when its
detection value exceeds the 2.3-percentile clip threshold, not
unconditionally as the claim states. -/
theorem C7_radius_clipping (ddata : List (List ℚ)) (cx cy R : ℚ)
    (cat : List SexSource) (cthr : ℚ) (keep : List ℤ) (j i : ℕ)
    (hj : j < ddata.length) (hi : i < (ddata.getD j []).length) :
    (sqrtGt (((i : ℚ) - cx) ^ 2 + ((j : ℚ) - cy) ^ 2) (R * 1.1) = true →
      ((calc_masks ddata cx cy R cat cthr keep).getD j []).getD i 0 = 0) ∧
    (inExcluded (i : ℚ) (j : ℚ) (starsOf cat cthr) keep = true →
      ((calc_masks ddata cx cy R cat cthr keep).getD j []).getD i 0 = 0) ∧
    (sqrtGt (((i : ℚ) - cx) ^ 2 + ((j : ℚ) - cy) ^ 2) (R * 1.1) = false →
      inExcluded (i : ℚ) (j : ℚ) (starsOf cat cthr) keep = false →
      (((calc_masks ddata cx cy R cat cthr keep).getD j []).getD i 0 = 1 ↔
        |percentile23 ddata.flatten| < (ddata.getD j []).getD i 0)) := by
  rw [calc_masks_get _ _ _ _ _ _ _ _ _ hj hi]
  refine ⟨?_, ?_, ?_⟩
  · intro hg
    unfold maskBit maskedVal
    rw [if_pos hg]
    simp
  · intro he
    unfold maskBit maskedVal
    by_cases hg : sqrtGt (((i : ℚ) - cx) ^ 2 + ((j : ℚ) - cy) ^ 2) (R * 1.1) = true
    · rw [if_pos hg]
      simp
    · rw [if_neg hg, if_pos he]
      simp
  · intro hg he
    unfold maskBit maskedVal
    rw [hg, he]
    simp only [Bool.false_eq_true, if_false]
    have hfd : fdataFn ddata j i =
        if |percentile23 ddata.flatten| < (ddata.getD j []).getD i 0 then
          (ddata.getD j []).getD i 0
        else 0 := rfl
    rw [hfd]
    by_cases hv : |percentile23 ddata.flatten| < (ddata.getD j []).getD i 0
    · have hpos : 0 < (ddata.getD j []).getD i 0 :=
        lt_of_le_of_lt (abs_nonneg _) hv
      rw [if_pos hv, if_pos hpos]
      exact iff_of_true rfl hv
    · rw [if_neg hv, if_neg (lt_irrefl (0 : ℚ))]
      exact iff_of_false (by norm_num) hv

/-- C7 witness on a one-pixel raster whose value clears the threshold. -/
theorem C7_witness :
    0 < ([[ (1 : ℚ) ]] : List (List ℚ)).length ∧
    0 < (([[ (1 : ℚ) ]] : List (List ℚ)).getD 0 []).length ∧
    ((sqrtGt ((((0 : ℕ) : ℚ) - 0) ^ 2 + (((0 : ℕ) : ℚ) - 0) ^ 2) (10 * 1.1) = true →
        ((calc_masks [[1]] 0 0 10 [] 0.8 []).getD 0 []).getD 0 0 = 0) ∧
      (inExcluded ((0 : ℕ) : ℚ) ((0 : ℕ) : ℚ) (starsOf [] 0.8) [] = true →
        ((calc_masks [[1]] 0 0 10 [] 0.8 []).getD 0 []).getD 0 0 = 0) ∧
      (sqrtGt ((((0 : ℕ) : ℚ) - 0) ^ 2 + (((0 : ℕ) : ℚ) - 0) ^ 2) (10 * 1.1) = false →
        inExcluded ((0 : ℕ) : ℚ) ((0 : ℕ) : ℚ) (starsOf [] 0.8) [] = false →
        (((calc_masks [[1]] 0 0 10 [] 0.8 []).getD 0 []).getD 0 0 = 1 ↔
          |percentile23 ([[ (1 : ℚ) ]] : List (List ℚ)).flatten| <
            (([[ (1 : ℚ) ]] : List (List ℚ)).getD 0 []).getD 0 0))) :=
  ⟨by decide, by decide, C7_radius_clipping [[1]] 0 0 10 [] 0.8 [] 0 0 (by decide) (by decide)⟩

/-- C7 counterexample: on the one-pixel raster with value 0, centre (0, 0)
and radius 10, the single pixel lies well within 1.1 times the radius and
no exclusion circle exists, yet the finalized mask is 0 there, because the
detection value 0 does not clear the percentile clip threshold; the claim
says every such pixel is 1. -/
theorem C7_inradius_counterexample :
    ((calc_masks [[0]] 0 0 10 [] 0.8 []).getD 0 []).getD 0 0 = 0 ∧
    sqrtGt (((0 : ℚ) - 0) ^ 2 + ((0 : ℚ) - 0) ^ 2) (10 * 1.1) = false ∧
    inExcluded (0 : ℚ) (0 : ℚ) (starsOf [] 0.8) [] = false := by
  refine ⟨?_, by norm_num [sqrtGt], by norm_num [inExcluded, starsOf]⟩
  rw [calc_masks_get [[0]] 0 0 10 [] 0.8 [] 0 0 (by norm_num) (by norm_num)]
  unfold maskBit maskedVal
  have hg : sqrtGt ((((0 : ℕ) : ℚ) - 0) ^ 2 + (((0 : ℕ) : ℚ) - 0) ^ 2) (10 * 1.1) = false := by
    norm_num [sqrtGt]
  have he : inExcluded ((0 : ℕ) : ℚ) ((0 : ℕ) : ℚ) (starsOf [] 0.8) [] = false := by
    norm_num [inExcluded, starsOf]
  rw [hg, he]
  simp only [Bool.false_eq_true, if_false]
  have hf : fdataFn [[0]] 0 0 = 0 := by
    simp [fdataFn]
  rw [hf]
  norm_num
